import Mathlib

/-!
Shallow embedding of the students CRUD service (`src/main.py`).

The persisted store is modelled as a list of rows (`DB := List StudentRow`);
SQLite assigns a fresh integer id `max(id) + 1` on insert, modelled by
`nextId`.  Partial updates arrive as a pydantic `StudentUpdate` whose fields
are all `Optional` with default `None`; `dict(exclude_unset=True)` keeps a
field exactly when it was explicitly supplied, even when supplied as `null`.
This two-level optionality is modelled with `Option (Option _)` fields:
`none` = the field was not supplied, `some none` = explicitly `null`,
`some (some v)` = explicitly `v`.  Applying an update produces an in-memory
ORM object (`StudentObj`) whose attributes may hold `None`; committing such
an object fails (SQLite `NOT NULL` constraint, every column is declared
`nullable=False`), modelled by `commitObj` returning `none`, which surfaces
as `UpdateResult.integrityError` (an unhandled exception, HTTP 500, with the
transaction rolled back on session close).
-/

namespace StudentsApp

/-- A persisted row of the `students` table (`class Student`, lines 15-26). -/
structure StudentRow where
  id : Nat
  last_name : String
  first_name : String
  faculty : String
  course : String
  grade : ℚ
  deriving DecidableEq, Repr

/-- Request body for creation (`class StudentCreate`): all five fields required. -/
structure StudentCreate where
  last_name : String
  first_name : String
  faculty : String
  course : String
  grade : ℚ
  deriving DecidableEq, Repr

/-- Request body for update (`class StudentUpdate`): every field optional.
Outer `none` = field not supplied; `some none` = explicit `null`;
`some (some v)` = explicit value `v` (pydantic `exclude_unset` semantics). -/
structure StudentUpdate where
  last_name : Option (Option String) := none
  first_name : Option (Option String) := none
  faculty : Option (Option String) := none
  course : Option (Option String) := none
  grade : Option (Option ℚ) := none
  deriving DecidableEq, Repr

/-- In-memory ORM object: after `setattr`, any attribute may hold `None`. -/
structure StudentObj where
  id : Nat
  last_name : Option String
  first_name : Option String
  faculty : Option String
  course : Option String
  grade : Option ℚ
  deriving DecidableEq, Repr

/-- The ORM object loaded from a persisted row: every attribute present. -/
def toObj (r : StudentRow) : StudentObj :=
  ⟨r.id, some r.last_name, some r.first_name, some r.faculty, some r.course, some r.grade⟩

/-- Flushing an ORM object: succeeds iff every `nullable=False` column is
non-null, otherwise the commit raises `IntegrityError`. -/
def commitObj (s : StudentObj) : Option StudentRow :=
  match s.last_name, s.first_name, s.faculty, s.course, s.grade with
  | some ln, some fn, some fac, some crs, some g => some ⟨s.id, ln, fn, fac, crs, g⟩
  | _, _, _, _, _ => none

/-- The `for key, value in data.dict(exclude_unset=True).items(): setattr(...)`
loop (lines 104-105): a field explicitly supplied (outer `some`) is written,
including an explicit `null`; an unsupplied field keeps its prior value. -/
def applyUpdate (u : StudentUpdate) (s : StudentObj) : StudentObj where
  id := s.id
  last_name := u.last_name.getD s.last_name
  first_name := u.first_name.getD s.first_name
  faculty := u.faculty.getD s.faculty
  course := u.course.getD s.course
  grade := u.grade.getD s.grade

/-- The persisted table state. -/
abbrev DB := List StudentRow

/-- SQLite rowid assignment for an `INTEGER PRIMARY KEY` column:
one greater than the largest id in the table. -/
def nextId (db : DB) : Nat :=
  (db.map (fun r => r.id)).foldr max 0 + 1

/-- `StudentDB.create_student` (lines 80-86): insert one row with all five
fields, commit, refresh, return the persisted row with its assigned id. -/
def create_student (db : DB) (d : StudentCreate) : StudentRow × DB :=
  let s : StudentRow := ⟨nextId db, d.last_name, d.first_name, d.faculty, d.course, d.grade⟩
  (s, db ++ [s])

/-- `StudentDB.get_all_students` (lines 89-91): `SELECT *`. -/
def get_all_students (db : DB) : List StudentRow :=
  db

/-- `StudentDB.get_student` (lines 93-95): `session.get` by primary key,
`None` when absent. -/
def get_student (db : DB) (sid : Nat) : Option StudentRow :=
  db.find? (fun r => r.id == sid)

/-- Outcome of `StudentDB.update_student`: `None` for a missing id, the
updated row on success, or an `IntegrityError` raised at commit when a
`NOT NULL` column was set to `null`. -/
inductive UpdateResult where
  | notFound
  | ok (s : StudentRow)
  | integrityError
  deriving DecidableEq, Repr

/-- `StudentDB.update_student` (lines 98-109): fetch by id (`None` when
absent), `setattr` each explicitly-supplied field, commit (rolled back when
it violates a `NOT NULL` constraint), return the refreshed row. -/
def update_student (db : DB) (sid : Nat) (u : StudentUpdate) : UpdateResult × DB :=
  match db.find? (fun r => r.id == sid) with
  | none => (.notFound, db)
  | some s =>
    match commitObj (applyUpdate u (toObj s)) with
    | none => (.integrityError, db)
    | some s2 => (.ok s2, db.map (fun r => if r.id == sid then s2 else r))

/-- `StudentDB.delete_student` (lines 112-119): fetch by id (`False` when
absent), delete the row, commit, return `True`. -/
def delete_student (db : DB) (sid : Nat) : Bool × DB :=
  match db.find? (fun r => r.id == sid) with
  | none => (false, db)
  | some _ => (true, db.filter (fun r => r.id != sid))

/-- `StudentDB.get_students_by_faculty` (lines 122-125): exact match on `faculty`. -/
def get_students_by_faculty (db : DB) (f : String) : List StudentRow :=
  db.filter (fun r => r.faculty == f)

/-- `StudentDB.get_unique_courses` (lines 127-130): `SELECT DISTINCT course`. -/
def get_unique_courses (db : DB) : List String :=
  (db.map (fun r => r.course)).dedup

/-- Round-half-to-even to an integer, as Python `round` does. -/
def roundHalfEven (q : ℚ) : ℤ :=
  let f := ⌊q⌋
  if q - f < 1 / 2 then f
  else if (1 : ℚ) / 2 < q - f then f + 1
  else if f % 2 = 0 then f else f + 1

/-- Python `round(x, 2)`. -/
def round2 (q : ℚ) : ℚ :=
  ((roundHalfEven (q * 100) : ℤ) : ℚ) / 100

/-- The grades of the rows matching a faculty. -/
def facultyGrades (db : DB) (f : String) : List ℚ :=
  (get_students_by_faculty db f).map (fun r => r.grade)

/-- `StudentDB.get_avg_grade_by_faculty` (lines 132-136): SQL `AVG` is `NULL`
over an empty set; the Python result is `round(avg_grade, 2) if avg_grade
else None`, so a falsy average — `None` or `0.0` — yields `None`. -/
def get_avg_grade_by_faculty (db : DB) (f : String) : Option ℚ :=
  let gs := facultyGrades db f
  if gs.isEmpty then none
  else
    let avg := gs.sum / (gs.length : ℚ)
    if avg = 0 then none else some (round2 avg)

/-- `StudentDB.get_students_with_low_grade` (lines 138-141): exact match on
`course` and `grade < 30`. -/
def get_students_with_low_grade (db : DB) (c : String) : List StudentRow :=
  db.filter (fun r => r.course == c && decide (r.grade < 30))

/-- Modelled from the spec: the CSV/pandas layer (`pd.read_csv` and its
numeric inference for the `grade` column) is library behavior outside this
repository; the spec requires the grade cell to be numeric.  Accepts an
optional leading minus sign, digits, and an optional fractional part. -/
def digitsToNat (l : List Char) : Option Nat :=
  if l.isEmpty then none
  else l.foldl (fun acc c => acc.bind (fun n =>
    if c.isDigit then some (n * 10 + (c.toNat - 48)) else none)) (some 0)

/-- Modelled from the spec: numeric parsing of a grade cell (see `digitsToNat`). -/
def parseDecimal (s : String) : Option ℚ :=
  let p :=
    match s.toList with
    | '-' :: rest => (true, rest)
    | l => (false, l)
  let intPart := p.2.takeWhile (fun c => c != '.')
  let val : Option ℚ :=
    match p.2.dropWhile (fun c => c != '.') with
    | [] => (digitsToNat intPart).map (fun n => (n : ℚ))
    | _ :: fracPart =>
      (digitsToNat intPart).bind (fun n =>
        (digitsToNat fracPart).map (fun m =>
          (n : ℚ) + (m : ℚ) / ((10 : ℚ) ^ fracPart.length)))
  val.map (fun q => if p.1 then -q else q)

/-- Modelled from the spec: one CSV data row maps positionally onto
`last_name, first_name, faculty, course, grade` (line 72); it is malformed
when the column count is not five or the grade is non-numeric. -/
def rowToCreate (row : List String) : Option StudentCreate :=
  match row with
  | [ln, fn, fac, crs, g] => (parseDecimal g).map (fun q => ⟨ln, fn, fac, crs, q⟩)
  | _ => none

/-- Parse all rows; `none` as soon as any row is malformed. -/
def parseRows : List (List String) → Option (List StudentCreate)
  | [] => some []
  | r :: rs => (rowToCreate r).bind (fun c => (parseRows rs).map (fun cs => c :: cs))

/-- `StudentDB.insert_from_csv` (lines 70-77): build one `Student` per data
row, `session.add` each, then a single `session.commit()`.  A malformed
input raises before the commit, so the batch leaves the table untouched
(`false`); otherwise all rows are persisted (`true`). -/
def insert_from_csv (db : DB) (rows : List (List String)) : Bool × DB :=
  match parseRows rows with
  | none => (false, db)
  | some cs => (true, cs.foldl (fun acc c => (create_student acc c).2) db)

/-- The five non-id fields of a persisted row. -/
def dropId (r : StudentRow) : StudentCreate :=
  ⟨r.last_name, r.first_name, r.faculty, r.course, r.grade⟩

/-- An HTTP response of the façade: `200` with a body, `404` with a detail
message, or `500` from an unhandled exception. -/
inductive Resp (α : Type) where
  | ok (body : α)
  | notFound (detail : String)
  | serverError
  deriving DecidableEq, Repr

/-- Route `GET /students/{student_id}` (lines 164-169). -/
def route_get_student (db : DB) (sid : Nat) : Resp StudentRow :=
  match get_student db sid with
  | none => .notFound "Student not found"
  | some s => .ok s

/-- Route `PUT /students/{student_id}` (lines 173-178); an `IntegrityError`
escaping the handler is a 500. -/
def route_update_student (db : DB) (sid : Nat) (u : StudentUpdate) : Resp StudentRow × DB :=
  match update_student db sid u with
  | (.notFound, db2) => (.notFound "Student not found", db2)
  | (.integrityError, db2) => (.serverError, db2)
  | (.ok s, db2) => (.ok s, db2)

/-- Route `DELETE /students/{student_id}` (lines 182-187): body
`{"status": "deleted"}` on success, modelled by its `status` value. -/
def route_delete_student (db : DB) (sid : Nat) : Resp String × DB :=
  match delete_student db sid with
  | (false, db2) => (.notFound "Student not found", db2)
  | (true, db2) => (.ok "deleted", db2)

/-- The operations of the data-access layer, for statements quantifying
over operations. -/
inductive DBOp where
  | createOne (d : StudentCreate)
  | insertCsv (rows : List (List String))
  | getAll
  | getOne (sid : Nat)
  | updateOne (sid : Nat) (u : StudentUpdate)
  | deleteOne (sid : Nat)
  | byFaculty (f : String)
  | uniqueCourses
  | avgGrade (f : String)
  | lowGrade (c : String)

/-- The possible outputs of a data-access operation. -/
inductive DBOut where
  | created (s : StudentRow)
  | imported (okay : Bool)
  | students (l : List StudentRow)
  | optStudent (s : Option StudentRow)
  | updated (r : UpdateResult)
  | deleted (b : Bool)
  | courses (l : List String)
  | average (q : Option ℚ)
  deriving DecidableEq, Repr

/-- Run one data-access operation against the store, returning its output
and the resulting store state. -/
def runOp : DBOp → DB → DBOut × DB
  | .createOne d, db => ((.created (create_student db d).1), (create_student db d).2)
  | .insertCsv rows, db => ((.imported (insert_from_csv db rows).1), (insert_from_csv db rows).2)
  | .getAll, db => (.students (get_all_students db), db)
  | .getOne sid, db => (.optStudent (get_student db sid), db)
  | .updateOne sid u, db => ((.updated (update_student db sid u).1), (update_student db sid u).2)
  | .deleteOne sid, db => ((.deleted (delete_student db sid).1), (delete_student db sid).2)
  | .byFaculty f, db => (.students (get_students_by_faculty db f), db)
  | .uniqueCourses, db => (.courses (get_unique_courses db), db)
  | .avgGrade f, db => (.average (get_avg_grade_by_faculty db f), db)
  | .lowGrade c, db => (.students (get_students_with_low_grade db c), db)

/-- An update that only sets `grade` (the body `{"grade": v}`). -/
def gradeUpdate (v : ℚ) : StudentUpdate :=
  ⟨none, none, none, none, some (some v)⟩

/-- The empty update (the body `{}`). -/
def emptyUpdate : StudentUpdate :=
  ⟨none, none, none, none, none⟩

/-- An update explicitly setting `grade` to `null` (the body `{"grade": null}`). -/
def nullGradeUpdate : StudentUpdate :=
  ⟨none, none, none, none, some none⟩

/-- No field of the update is explicitly `null`. -/
def noExplicitNull (u : StudentUpdate) : Prop :=
  u.last_name ≠ some none ∧ u.first_name ≠ some none ∧ u.faculty ≠ some none ∧
    u.course ≠ some none ∧ u.grade ≠ some none

/-- A store with one student of grade 0 in faculty CS. -/
def dbZero : DB :=
  [⟨1, "Ivanov", "Petr", "CS", "c2024", 0⟩]

/-- A store with one student of grade 10 in faculty CS. -/
def dbTen : DB :=
  [⟨1, "Ivanov", "Petr", "CS", "c2024", 10⟩]

/-! ## Helper lemmas -/

theorem mem_le_foldrMax (l : List Nat) (x : Nat) (hx : x ∈ l) : x ≤ l.foldr max 0 := by
  induction l with
  | nil => cases hx
  | cons a t ih =>
    rcases List.mem_cons.mp hx with h | h
    · subst h; exact le_max_left _ _
    · exact le_trans (ih h) (le_max_right _ _)

theorem id_lt_nextId (db : DB) (r : StudentRow) (hr : r ∈ db) : r.id < nextId db :=
  Nat.lt_succ_of_le (mem_le_foldrMax _ _ (List.mem_map_of_mem (fun x => x.id) hr))

theorem find?_map_replace {db : DB} {sid : Nat} {s s2 : StudentRow}
    (hf : db.find? (fun r => r.id == sid) = some s) (h2 : s2.id = sid) :
    (db.map (fun r => if r.id == sid then s2 else r)).find? (fun r => r.id == sid) = some s2 := by
  induction db with
  | nil => simp at hf
  | cons a t ih =>
    rw [List.find?_cons] at hf
    cases ha : (a.id == sid) with
    | true =>
      simp only [List.map_cons, ha, if_true, List.find?_cons]
      simp [h2]
    | false =>
      simp only [ha] at hf
      simp only [List.map_cons, ha, Bool.false_eq_true, if_false, List.find?_cons]
      exact ih hf

theorem map_replace_self {db : DB} {sid : Nat} {s : StudentRow}
    (hf : db.find? (fun r => r.id == sid) = some s)
    (hnd : (db.map (fun r => r.id)).Nodup) :
    db.map (fun r => if r.id == sid then s else r) = db := by
  have hs : s ∈ db := List.mem_of_find?_eq_some hf
  have hsid : s.id = sid := by
    have := List.find?_some hf
    simpa using this
  have hmap : ∀ r ∈ db, (if r.id == sid then s else r) = r := by
    intro r hr
    by_cases h : (r.id == sid) = true
    · have hrs : r = s :=
        List.inj_on_of_nodup_map hnd hr hs (by simpa [hsid] using h)
      simp [h, hrs]
    · simp [h]
  calc db.map (fun r => if r.id == sid then s else r) = db.map id :=
        List.map_congr_left hmap
    _ = db := List.map_id db

theorem parseRows_eq_none_of_bad {rows : List (List String)} {r : List String}
    (hr : r ∈ rows) (hbad : rowToCreate r = none) : parseRows rows = none := by
  induction rows with
  | nil => cases hr
  | cons a t ih =>
    rcases List.mem_cons.mp hr with h | h
    · subst h; simp [parseRows, hbad]
    · cases ha : rowToCreate a with
      | none => simp [parseRows, ha]
      | some c => simp [parseRows, ha, ih h]

theorem foldl_create_map_dropId (cs : List StudentCreate) (db : DB) :
    (cs.foldl (fun acc c => (create_student acc c).2) db).map dropId = db.map dropId ++ cs := by
  induction cs generalizing db with
  | nil => simp
  | cons c t ih =>
    have hd : dropId (⟨nextId db, c.last_name, c.first_name, c.faculty, c.course, c.grade⟩ :
        StudentRow) = c := rfl
    simp only [List.foldl_cons]
    rw [ih]
    simp [create_student, hd]

theorem getD_ne_none {α : Type} (o : Option (Option α)) (x : α) (h : o ≠ some none) :
    ∃ y, o.getD (some x) = some y := by
  cases o with
  | none => exact ⟨x, rfl⟩
  | some w =>
    cases w with
    | none => exact absurd rfl h
    | some y => exact ⟨y, rfl⟩

/-! ## Claims -/

/-- C2: for every record with all five non-id fields supplied, `create`
persists a record, assigns it an id, and `getById` on the assigned id
returns a record whose five non-id fields equal the input. -/
theorem create_getById_roundtrip (db : DB) (d : StudentCreate) :
    get_student (create_student db d).2 (create_student db d).1.id =
      some (create_student db d).1 ∧
    dropId (create_student db d).1 = d := by
  refine ⟨?_, rfl⟩
  show (db ++ [(create_student db d).1]).find?
      (fun r => r.id == (create_student db d).1.id) = some (create_student db d).1
  rw [List.find?_append]
  have hnone : db.find? (fun r => r.id == (create_student db d).1.id) = none := by
    rw [List.find?_eq_none]
    intro x hx
    have hlt : x.id < nextId db := id_lt_nextId db x hx
    simp only [create_student]
    simp [Nat.ne_of_lt hlt]
  rw [hnone]
  simp [List.find?_cons_of_pos]

/-- C7: deleting an existing id returns success and a subsequent `getById`
on that id returns the not-found signal. -/
theorem delete_then_getById (db : DB) (sid : Nat) (h : get_student db sid ≠ none) :
    (delete_student db sid).1 = true ∧
    get_student (delete_student db sid).2 sid = none := by
  simp only [get_student, delete_student] at h ⊢
  cases hf : db.find? (fun r => r.id == sid) with
  | none => exact absurd hf h
  | some s =>
    refine ⟨rfl, ?_⟩
    rw [List.find?_eq_none]
    intro x hx
    have hne := (List.mem_filter.mp hx).2
    simp only [bne_iff_ne, ne_eq] at hne
    simp [hne]

/-- C7 witness: on a concrete one-row store, deleting id 1 succeeds and the
row is gone. -/
theorem delete_then_getById_witness :
    (delete_student dbTen 1).1 = true ∧
    get_student (delete_student dbTen 1).2 1 = none :=
  delete_then_getById dbTen 1 (by decide)

/-- C8: `getLowGrade(courseName)` returns exactly the records whose `course`
equals the argument and whose `grade` is strictly below 30. -/
theorem low_grade_members (db : DB) (c : String) (s : StudentRow) :
    s ∈ get_students_with_low_grade db c ↔ s ∈ db ∧ s.course = c ∧ s.grade < 30 := by
  simp [get_students_with_low_grade, List.mem_filter, and_assoc]

/-- C8 witness: a concrete row with matching course and grade 10 < 30 is
returned by the low-grade query. -/
theorem low_grade_members_witness :
    (⟨1, "Ivanov", "Petr", "CS", "c2024", 10⟩ : StudentRow) ∈
      get_students_with_low_grade dbTen "c2024" :=
  (low_grade_members dbTen "c2024" ⟨1, "Ivanov", "Petr", "CS", "c2024", 10⟩).mpr
    ⟨by simp [dbTen], rfl, by norm_num⟩

/-- C10: every read-only operation — get-all, get-by-id, by-faculty,
distinct courses, average grade, low-grade filter — leaves the store state
unchanged. -/
theorem read_ops_preserve_state (db : DB) :
    (runOp DBOp.getAll db).2 = db ∧
    (∀ sid, (runOp (DBOp.getOne sid) db).2 = db) ∧
    (∀ f, (runOp (DBOp.byFaculty f) db).2 = db) ∧
    (runOp DBOp.uniqueCourses db).2 = db ∧
    (∀ f, (runOp (DBOp.avgGrade f) db).2 = db) ∧
    (∀ c, (runOp (DBOp.lowGrade c) db).2 = db) :=
  ⟨rfl, fun _ => rfl, fun _ => rfl, rfl, fun _ => rfl, fun _ => rfl⟩

/-- C3: for an existing id, an update supplying only `grade` changes only
`grade`; the four other non-id fields and the id keep their prior values,
and the updated record is both returned and stored. -/
theorem update_grade_only (db : DB) (sid : Nat) (s : StudentRow) (v : ℚ)
    (h : get_student db sid = some s) :
    (update_student db sid (gradeUpdate v)).1 =
      UpdateResult.ok ⟨s.id, s.last_name, s.first_name, s.faculty, s.course, v⟩ ∧
    get_student (update_student db sid (gradeUpdate v)).2 sid =
      some ⟨s.id, s.last_name, s.first_name, s.faculty, s.course, v⟩ := by
  simp only [get_student] at h
  have hc : commitObj (applyUpdate (gradeUpdate v) (toObj s)) =
      some ⟨s.id, s.last_name, s.first_name, s.faculty, s.course, v⟩ := rfl
  have hsid : s.id = sid := by simpa using List.find?_some h
  constructor
  · simp only [update_student, h, hc]
  · simp only [get_student, update_student, h, hc]
    exact find?_map_replace h hsid

/-- C3 witness: on a concrete one-row store, updating only `grade` to 5
returns and stores the row with only `grade` changed. -/
theorem update_grade_only_witness :
    (update_student dbTen 1 (gradeUpdate 5)).1 =
      UpdateResult.ok ⟨1, "Ivanov", "Petr", "CS", "c2024", 5⟩ ∧
    get_student (update_student dbTen 1 (gradeUpdate 5)).2 1 =
      some ⟨1, "Ivanov", "Petr", "CS", "c2024", 5⟩ :=
  update_grade_only dbTen 1 ⟨1, "Ivanov", "Petr", "CS", "c2024", 10⟩ 5 rfl

/-- C4: for an existing id, the empty partial update leaves the store
unchanged and returns the record as stored.  (Primary-key uniqueness of
ids, enforced by the store, is the `Nodup` hypothesis.) -/
theorem update_empty_noop (db : DB) (sid : Nat) (s : StudentRow)
    (h : get_student db sid = some s)
    (hnd : (db.map (fun r => r.id)).Nodup) :
    update_student db sid emptyUpdate = (UpdateResult.ok s, db) := by
  simp only [get_student] at h
  have hc : commitObj (applyUpdate emptyUpdate (toObj s)) = some s := rfl
  simp only [update_student, h, hc]
  rw [map_replace_self h hnd]

/-- C4 witness: on a concrete one-row store, the empty update returns the
stored row and leaves the store unchanged. -/
theorem update_empty_noop_witness :
    update_student dbTen 1 emptyUpdate =
      (UpdateResult.ok ⟨1, "Ivanov", "Petr", "CS", "c2024", 10⟩, dbTen) :=
  update_empty_noop dbTen 1 ⟨1, "Ivanov", "Petr", "CS", "c2024", 10⟩ rfl (by decide)

/-- C9: in a partial update, absence and explicit null are distinguishable
and only present fields are applied: for each of the five fields, an absent
field (outer `none`) leaves the stored attribute untouched, while an
explicitly supplied value `w` — including the explicit null `w = none` —
is written to the stored attribute. -/
theorem update_present_vs_absent (u : StudentUpdate) (s : StudentObj) :
    (u.last_name = none → (applyUpdate u s).last_name = s.last_name) ∧
    (∀ w, u.last_name = some w → (applyUpdate u s).last_name = w) ∧
    (u.first_name = none → (applyUpdate u s).first_name = s.first_name) ∧
    (∀ w, u.first_name = some w → (applyUpdate u s).first_name = w) ∧
    (u.faculty = none → (applyUpdate u s).faculty = s.faculty) ∧
    (∀ w, u.faculty = some w → (applyUpdate u s).faculty = w) ∧
    (u.course = none → (applyUpdate u s).course = s.course) ∧
    (∀ w, u.course = some w → (applyUpdate u s).course = w) ∧
    (u.grade = none → (applyUpdate u s).grade = s.grade) ∧
    (∀ w, u.grade = some w → (applyUpdate u s).grade = w) := by
  refine ⟨fun h => ?_, fun w h => ?_, fun h => ?_, fun w h => ?_, fun h => ?_, fun w h => ?_,
    fun h => ?_, fun w h => ?_, fun h => ?_, fun w h => ?_⟩ <;>
  simp [applyUpdate, h]

/-- C9 witness: the update `{"grade": null}` sets the stored `grade`
attribute to null (applied, not ignored) and leaves `faculty` untouched. -/
theorem update_present_vs_absent_witness :
    (applyUpdate nullGradeUpdate (toObj ⟨1, "Ivanov", "Petr", "CS", "c2024", 10⟩)).grade =
      none ∧
    (applyUpdate nullGradeUpdate (toObj ⟨1, "Ivanov", "Petr", "CS", "c2024", 10⟩)).faculty =
      (toObj ⟨1, "Ivanov", "Petr", "CS", "c2024", 10⟩).faculty :=
  ⟨(update_present_vs_absent nullGradeUpdate
      (toObj ⟨1, "Ivanov", "Petr", "CS", "c2024", 10⟩)).2.2.2.2.2.2.2.2.2 none rfl,
   (update_present_vs_absent nullGradeUpdate
      (toObj ⟨1, "Ivanov", "Petr", "CS", "c2024", 10⟩)).2.2.2.2.1 rfl⟩

/-- C1 counterexample: a store whose only record has faculty CS and grade 0.
Matching records exist, yet `getAverageGrade("CS")` returns the no-data
signal, because `round(avg_grade, 2) if avg_grade else None` treats the
falsy average `0.0` like `None`. -/
theorem avg_grade_zero_counterexample :
    get_students_by_faculty dbZero "CS" ≠ [] ∧
    get_avg_grade_by_faculty dbZero "CS" = none := by
  constructor
  · decide
  · have h : facultyGrades dbZero "CS" = [0] := rfl
    norm_num [get_avg_grade_by_faculty, h]

/-- C1 amended: `getAverageGrade(facultyName)` returns the no-data signal
iff no record matches the faculty or the mean grade is 0 (Python truthiness
of `0.0`); any other result is the mean of the matching grades rounded to
two decimal places. -/
theorem avg_grade_characterization (db : DB) (f : String) :
    (get_avg_grade_by_faculty db f = none ↔
      facultyGrades db f = [] ∨ (facultyGrades db f).sum = 0) ∧
    (∀ q, get_avg_grade_by_faculty db f = some q →
      facultyGrades db f ≠ [] ∧
      q = round2 ((facultyGrades db f).sum / ((facultyGrades db f).length : ℚ))) := by
  have hrw : get_avg_grade_by_faculty db f =
      if facultyGrades db f = [] then none
      else if (facultyGrades db f).sum / ((facultyGrades db f).length : ℚ) = 0 then none
      else some (round2 ((facultyGrades db f).sum / ((facultyGrades db f).length : ℚ))) := by
    rcases h : facultyGrades db f with _ | ⟨a, t⟩ <;>
      simp [get_avg_grade_by_faculty, h]
  rcases hgs : facultyGrades db f with _ | ⟨a, t⟩
  · rw [hgs, if_pos rfl] at hrw
    constructor
    · simp [hrw]
    · intro q hq
      rw [hrw] at hq
      exact absurd hq (by simp)
  · rw [hgs, if_neg (by simp : ¬ (a :: t) = [])] at hrw
    constructor
    · by_cases hz : (a :: t).sum / (((a :: t).length : ℚ)) = 0
      · rw [if_pos hz] at hrw
        have hlen : (((a :: t).length : ℚ)) ≠ 0 := Nat.cast_ne_zero.mpr (by simp)
        have hsum : (a :: t).sum = 0 := by
          rcases div_eq_zero_iff.mp hz with h0 | h0
          · exact h0
          · exact absurd h0 hlen
        simp [hrw, hsum]
      · rw [if_neg hz] at hrw
        have hsum : (a :: t).sum ≠ 0 := fun h0 => hz (by rw [h0, zero_div])
        have hsum2 : ¬ (a + t.sum = 0) := by simpa using hsum
        simp [hrw, hsum2]
    · intro q hq
      by_cases hz : (a :: t).sum / (((a :: t).length : ℚ)) = 0
      · rw [if_pos hz] at hrw
        rw [hrw] at hq
        exact absurd hq (by simp)
      · rw [if_neg hz] at hrw
        rw [hrw] at hq
        exact ⟨by simp, (Option.some.inj hq).symm⟩

/-- C1 amended witness: one CS record of grade 10; the returned average is
10, the rounded mean. -/
theorem avg_grade_characterization_witness :
    facultyGrades dbTen "CS" ≠ [] ∧
    (10 : ℚ) = round2 ((facultyGrades dbTen "CS").sum /
      ((facultyGrades dbTen "CS").length : ℚ)) :=
  (avg_grade_characterization dbTen "CS").2 10 (by
    have h : facultyGrades dbTen "CS" = [10] := rfl
    norm_num [get_avg_grade_by_faculty, h, round2, roundHalfEven])

/-- C5: the batch import inserts exactly one record per input row, mapping
the five positional columns onto the five non-id fields in order, and is
all-or-nothing: a malformed row (wrong column count or non-numeric grade)
aborts the whole batch, leaving the store untouched. -/
theorem insert_from_csv_spec (db : DB) (rows : List (List String)) :
    ((∃ r, r ∈ rows ∧ rowToCreate r = none) → insert_from_csv db rows = (false, db)) ∧
    (∀ cs, parseRows rows = some cs →
      (insert_from_csv db rows).1 = true ∧
      ((insert_from_csv db rows).2).map dropId = db.map dropId ++ cs) := by
  constructor
  · rintro ⟨r, hr, hbad⟩
    simp [insert_from_csv, parseRows_eq_none_of_bad hr hbad]
  · intro cs hcs
    simp [insert_from_csv, hcs, foldl_create_map_dropId]

/-- C5 witness: a one-column row aborts the batch on an empty store; a
well-formed five-column row is imported as one record with the columns
mapped in order. -/
theorem insert_from_csv_spec_witness :
    insert_from_csv [] [["a"]] = (false, []) ∧
    (insert_from_csv [] [["a", "b", "c", "d", "5"]]).1 = true ∧
    ((insert_from_csv [] [["a", "b", "c", "d", "5"]]).2).map dropId =
      ([] : DB).map dropId ++ [⟨"a", "b", "c", "d", 5⟩] :=
  ⟨(insert_from_csv_spec [] [["a"]]).1 ⟨["a"], by simp, rfl⟩,
   (insert_from_csv_spec [] [["a", "b", "c", "d", "5"]]).2 [⟨"a", "b", "c", "d", 5⟩] rfl⟩

/-- C6 counterexample: student 1 exists, yet `PUT /students/1` with body
`{"grade": null}` does not answer 200: the explicit null is applied to a
`nullable=False` column and the commit raises, surfacing as a 500. -/
theorem routes_put_null_counterexample :
    get_student dbTen 1 ≠ none ∧
    (route_update_student dbTen 1 nullGradeUpdate).1 = Resp.serverError :=
  ⟨by decide, rfl⟩

/-- C6 amended: for an absent id, GET, PUT and DELETE all answer 404 with
detail "Student not found"; for an existing id, GET answers 200 with the
record and DELETE answers 200 with the deleted marker, and PUT answers 200
with the updated record provided no field of the body is an explicit null
(an explicit null makes the commit raise, a 500). -/
theorem routes_status_spec (db : DB) (sid : Nat) (u : StudentUpdate) :
    (get_student db sid = none →
      route_get_student db sid = Resp.notFound "Student not found" ∧
      (route_update_student db sid u).1 = Resp.notFound "Student not found" ∧
      (route_delete_student db sid).1 = Resp.notFound "Student not found") ∧
    (∀ s, get_student db sid = some s →
      route_get_student db sid = Resp.ok s ∧
      (route_delete_student db sid).1 = Resp.ok "deleted" ∧
      (noExplicitNull u → ∃ s2, (route_update_student db sid u).1 = Resp.ok s2)) := by
  constructor
  · intro h
    simp only [get_student] at h
    exact ⟨by simp [route_get_student, get_student, h],
           by simp [route_update_student, update_student, h],
           by simp [route_delete_student, delete_student, h]⟩
  · intro s h
    simp only [get_student] at h
    refine ⟨by simp [route_get_student, get_student, h],
            by simp [route_delete_student, delete_student, h], ?_⟩
    rintro ⟨h1, h2, h3, h4, h5⟩
    obtain ⟨ln, hln⟩ := getD_ne_none u.last_name s.last_name h1
    obtain ⟨fn, hfn⟩ := getD_ne_none u.first_name s.first_name h2
    obtain ⟨fac, hfac⟩ := getD_ne_none u.faculty s.faculty h3
    obtain ⟨crs, hcrs⟩ := getD_ne_none u.course s.course h4
    obtain ⟨g, hg⟩ := getD_ne_none u.grade s.grade h5
    have hc : commitObj (applyUpdate u (toObj s)) = some ⟨s.id, ln, fn, fac, crs, g⟩ := by
      simp [commitObj, applyUpdate, toObj, hln, hfn, hfac, hcrs, hg]
    exact ⟨⟨s.id, ln, fn, fac, crs, g⟩,
           by simp [route_update_student, update_student, h, hc]⟩

/-- C6 amended witness: concrete store with student 1 only — GET on id 2 is
a 404, GET on id 1 is a 200 with the record, DELETE on id 1 is a 200 with
the deleted marker. -/
theorem routes_status_spec_witness :
    route_get_student dbTen 2 = Resp.notFound "Student not found" ∧
    route_get_student dbTen 1 = Resp.ok ⟨1, "Ivanov", "Petr", "CS", "c2024", 10⟩ ∧
    (route_delete_student dbTen 1).1 = Resp.ok "deleted" :=
  ⟨((routes_status_spec dbTen 2 emptyUpdate).1 rfl).1,
   ((routes_status_spec dbTen 1 emptyUpdate).2
      ⟨1, "Ivanov", "Petr", "CS", "c2024", 10⟩ rfl).1,
   ((routes_status_spec dbTen 1 emptyUpdate).2
      ⟨1, "Ivanov", "Petr", "CS", "c2024", 10⟩ rfl).2.1⟩

end StudentsApp
